import Mathlib

/-!
Verification of the authentication negotiation subsystem and the job
streaming/status protocol client of the `platform-client-python`
repository, against its natural-language specification.

The embedding follows `python/neuromation/cli/login.py` (auth subsystem)
and, for the jobs client whose implementation module is not part of the
sources at hand, the specification text (such definitions carry a
`Modelled from the spec:` doc comment).

Machine conventions:
* Python time values `int(time.time())` are modelled as `Int`.
* Python exceptions are modelled as explicit error values of
  `LoginError` / `JobsError`, returned through `Except`.
* `int(expires_in * 0.75)` is modelled by exact rational arithmetic
  (`3 * expires_in / 4` with `Nat` floor division); binary64 evaluation
  of `expires_in * 0.75` is exact whenever `3 * expires_in < 2 ^ 53`
  (0.75 is exactly representable and the product then needs at most 53
  significand bits), so theorems that depend on this carry that bound.
-/

namespace PlatformClient

/-- Errors raised by `login.py`.  `authException msg` stands for Python
`AuthException(msg)`, `runtimeError` for `RuntimeError`, and `osError e`
for an `OSError` whose `errno` is `e`. -/
inductive LoginError where
  | authException (msg : String)
  | runtimeError (msg : String)
  | osError (e : Int)
  deriving DecidableEq, Repr

/-- Linux value of `errno.EADDRINUSE`, the errno compared against in
`create_app_server`. -/
def errnoEADDRINUSE : Int := 98

/-! ## AuthToken (login.py lines 184-213) -/

/-- `AuthToken` dataclass: fields `token`, `expiration_time`,
`refresh_token` (the `time_factory` field is modelled by passing the
current time explicitly at each use). -/
structure AuthToken where
  token : String
  expiration_time : Int
  refresh_token : String
  deriving DecidableEq, Repr

namespace AuthToken

/-- `is_expired` property: `self.expiration_time <= int(self.time_factory())`.
`now` stands for `int(self.time_factory())`. -/
def is_expired (t : AuthToken) (now : Int) : Bool :=
  t.expiration_time ≤ now

/-- `AuthToken.create` with the default `expiration_ratio = 0.75`:
`expiration_time = int(time_factory()) + int(expires_in * 0.75)`.
`now` stands for `int(time_factory())`; `int(expires_in * 0.75)` is the
exact value `3 * expires_in / 4` (floor division). -/
def create (token : String) (expires_in : ℕ) (refresh_token : String)
    (now : Int) : AuthToken :=
  { token := token
    expiration_time := now + (3 * expires_in / 4 : ℕ)
    refresh_token := refresh_token }

end AuthToken

/-! ## AuthCode.wait (login.py lines 81-86) -/

/-- Possible outcomes of `await asyncio.wait_for(self._future, timeout_s)`
for the single-slot future inside `AuthCode`: the future was resolved
with a value before the deadline, the future was cancelled, or the
timeout elapsed with the future still pending. -/
inductive FutureOutcome where
  | value (v : String)
  | cancelled
  | timeout
  deriving DecidableEq, Repr

/-- Default `timeout_s` of `AuthCode.wait` (seconds). -/
def waitDefaultTimeout : ℕ := 60

namespace AuthCode

/-- `AuthCode.wait`: awaits the future; `asyncio.TimeoutError` and
`asyncio.CancelledError` are both turned into
`AuthException("failed to get an authorization code")`; otherwise the
future's result is returned. -/
def wait (outcome : FutureOutcome) : Except LoginError String :=
  match outcome with
  | .value v => .ok v
  | .cancelled => .error (.authException "failed to get an authorization code")
  | .timeout => .error (.authException "failed to get an authorization code")

end AuthCode

/-! ## create_app_server (login.py lines 168-181) -/

/-- Result of one attempt to bind the callback site on a given port:
`none` means the bind succeeded, `some e` means `site.start()` raised
`OSError` with `errno = e`. -/
def BindEnv : Type := ℕ → Option Int

/-- The URL yielded by `create_app_server_once` (`URL(site.name)`):
the host and the port the site was bound on. -/
structure CallbackUrl where
  host : String
  port : ℕ
  deriving DecidableEq, Repr

/-- `create_app_server`: iterates over the candidate ports in order;
a successful bind serves on that port (the yielded URL carries it);
an `OSError` with `errno == EADDRINUSE` falls through to the next
candidate; any other `OSError` propagates; if the port list is
exhausted, raises `RuntimeError("No free ports.")`. -/
def create_app_server (bind : BindEnv) (host : String) :
    List ℕ → Except LoginError CallbackUrl
  | [] => .error (.runtimeError "No free ports.")
  | port :: rest =>
    match bind port with
    | none => .ok ⟨host, port⟩
    | some e =>
      if e = errnoEADDRINUSE then create_app_server bind host rest
      else .error (.osError e)

/-! ## AuthTokenClient (login.py lines 216-268) -/

/-- A token-endpoint HTTP response as the client observes it: the status
code and the JSON payload fields the exchange/refresh code may read.
`refresh_token` is optional because a server may omit it. -/
structure TokenResponse where
  status : ℕ
  access_token : String
  expires_in : ℕ
  refresh_token : Option String
  deriving DecidableEq, Repr

/-- `resp.raise_for_status()` raises `aiohttp.ClientResponseError`
exactly when the response status is `>= 400`. -/
def raise_for_status (status : ℕ) : Bool := 400 ≤ status

namespace AuthTokenClient

/-- `AuthTokenClient.refresh`: POSTs the refresh grant; a status `>= 400`
becomes `AuthException("failed to get an access token.")`; on success the
new `AuthToken` is created from the response's `access_token` and
`expires_in`, with `refresh_token=token.refresh_token` — the original
token's refresh token, regardless of the response payload.  `now` stands
for `int(time.time())` at token creation. -/
def refresh (token : AuthToken) (resp : TokenResponse) (now : Int) :
    Except LoginError AuthToken :=
  if raise_for_status resp.status then
    .error (.authException "failed to get an access token.")
  else
    .ok (AuthToken.create resp.access_token resp.expires_in
      token.refresh_token now)

/-- `AuthTokenClient.request` (initial `code -> token` exchange): same
error contract; on success the `AuthToken` is created from the
response's `access_token`, `expires_in` and `refresh_token` fields
(here the payload must carry one; `getD ""` models the `KeyError` path
never being relevant to the claims). -/
def request (resp : TokenResponse) (now : Int) : Except LoginError AuthToken :=
  if raise_for_status resp.status then
    .error (.authException "failed to get an access token.")
  else
    .ok (AuthToken.create resp.access_token resp.expires_in
      (resp.refresh_token.getD "") now)

end AuthTokenClient

/-! ## AuthNegotiator.refresh_token (login.py lines 340-351) -/

/-- The observable operations `AuthNegotiator.refresh_token` can perform
beyond returning a token: `getCode` is the interactive flow of
`get_code` (callback server + dispatch + await code), `exchangeCode`
is `token_client.request(code)`, `refreshCall` is
`token_client.refresh(token)`. -/
inductive AuthEffect where
  | getCode
  | exchangeCode
  | refreshCall
  deriving DecidableEq, Repr

/-- Environment supplying the results of the network operations
`refresh_token` may invoke: the token produced by the interactive
exchange and the token produced by the refresh call. -/
structure NegotiatorEnv where
  exchanged : AuthToken
  refreshed : AuthToken
  deriving Repr

/-- `AuthNegotiator.refresh_token`, with the trace of performed
operations made explicit: with no token it runs `get_code` then the
code-for-token exchange; with an expired token it performs only the
refresh call; with a non-expired token it returns that token and
performs nothing.  `now` stands for `int(time.time())` at the
`is_expired` check. -/
def AuthNegotiator.refresh_token (env : NegotiatorEnv) (now : Int)
    (token : Option AuthToken) : AuthToken × List AuthEffect :=
  match token with
  | none => (env.exchanged, [.getCode, .exchangeCode])
  | some t =>
    if t.is_expired now then (env.refreshed, [.refreshCall])
    else (t, [])

/-! ## Job protocol client

The jobs client module itself is not among the sources at hand (only its
tests in `tests/api/test_jobs.py` and its CLI callers are), so the
definitions below are modelled from the specification text, with the
tests fixing the concrete payload shapes. -/

/-- Errors raised by the jobs client: `resourceNotFound` stands for the
`ResourceNotFound` exception, `valueError msg` for `ValueError(msg)`. -/
inductive JobsError where
  | resourceNotFound
  | valueError (msg : String)
  deriving DecidableEq, Repr

/-- One telemetry sample, as decoded from a frame of the `top` stream
(numbers kept exact as rationals). -/
structure JobTelemetry where
  cpu : ℚ
  memory : ℚ
  timestamp : ℚ
  gpu_duty_cycle : Option ℚ
  gpu_memory : Option ℚ
  deriving DecidableEq, Repr

/-- The log-stream HTTP response for `monitor` as the client observes
it: the status code and the successive chunk reads (each chunk a byte
list; reading past the end of the stream returns an empty chunk). -/
structure LogStreamResponse where
  status : ℕ
  chunks : List (List ℕ)
  deriving DecidableEq, Repr

/-- The `top` connection as the client observes it: the status of the
connection attempt and the telemetry frames delivered before the socket
closed. -/
structure TopResponse where
  status : ℕ
  frames : List JobTelemetry
  deriving DecidableEq, Repr

namespace Jobs

/-- Modelled from the spec: `monitor(id)` (jobs client module absent
from the sources).  "produces a lazy, finite, non-restartable sequence
of byte chunks read from a chunked HTTP stream ... On 404, fails with
`ResourceNotFound` raised before yielding anything.  Termination: empty
chunk read closes the sequence normally."  The result lists the chunks
yielded to the consumer. -/
def monitor (resp : LogStreamResponse) : Except JobsError (List (List ℕ)) :=
  if resp.status = 404 then .error .resourceNotFound
  else .ok (resp.chunks.takeWhile (fun c => !c.isEmpty))

/-- Modelled from the spec: `top(id)` (jobs client module absent from
the sources).  "produces a lazy, finite, non-restartable sequence of
JobTelemetry decoded from ... push messages on a persistent socket.  If
the socket closes with zero messages delivered, the job is inferred
'not running' and the sequence fails with `ValueError("not running")`
before yielding.  A 400 status at connect time signals
`ValueError("not found")`." -/
def top (resp : TopResponse) : Except JobsError (List JobTelemetry) :=
  if resp.status = 400 then .error (.valueError "not found")
  else if resp.frames.isEmpty then .error (.valueError "not running")
  else .ok resp.frames

end Jobs

/-! ### Submit request body (sparse serialization) -/

/-- JSON values as the submit request body is built from (no `null`
constructor: the sparse serialization never emits one). -/
inductive Json where
  | str (s : String)
  | num (q : ℚ)
  | bool (b : Bool)
  | arr (xs : List Json)
  | obj (fields : List (String × Json))

/-- `Resources` as passed to `submit`. -/
structure Resources where
  cpu : ℚ
  memory_mb : ℕ
  gpu : Option ℕ
  gpu_model : Option String
  extshm : Bool
  deriving DecidableEq, Repr

/-- A volume mount as passed to `submit`. -/
structure Volume where
  storage_path : String
  container_path : String
  read_only : Bool
  deriving DecidableEq, Repr

/-- The image argument of `submit`: image reference and optional
command. -/
structure Image where
  image : String
  command : Option String
  deriving DecidableEq, Repr

/-- Serialization of a `Resources` value inside the container payload
(field names fixed by `test_job_submit`); the optional `gpu` and
`gpu_model` fields are omitted when unset. -/
def Resources.to_api (r : Resources) : Json :=
  .obj ([("memory_mb", .num r.memory_mb), ("cpu", .num r.cpu),
         ("shm", .bool r.extshm)]
    ++ (match r.gpu with
        | none => []
        | some g => [("gpu", .num g)])
    ++ (match r.gpu_model with
        | none => []
        | some m => [("gpu_model", .str m)]))

/-- Serialization of a `Volume` inside the container payload (field
names fixed by `test_job_submit`). -/
def Volume.to_api (v : Volume) : Json :=
  .obj [("src_storage_uri", .str v.storage_path),
        ("dst_path", .str v.container_path),
        ("read_only", .bool v.read_only)]

namespace Jobs

/-- Modelled from the spec: the `container` object of the submit request
body (jobs client module absent from the sources).  "request body omits
any optional field that is unset (sparse serialization — never send
nulls for absent optional fields)"; the key set and nesting are fixed by
`test_job_submit` / `test_job_submit_no_volumes`. -/
def container_to_api (image : Image) (resources : Resources)
    (httpPort : Option ℕ) (volumes : Option (List Volume)) :
    List (String × Json) :=
  [("image", .str image.image)]
  ++ (match image.command with
      | none => []
      | some c => [("command", .str c)])
  ++ (match httpPort with
      | none => []
      | some p => [("http", .obj [("port", .num p),
                                  ("requires_auth", .bool true)])])
  ++ [("resources", resources.to_api)]
  ++ (match volumes with
      | none => []
      | some vs => [("volumes", .arr (vs.map Volume.to_api))])

/-- Modelled from the spec: the full submit request body (jobs client
module absent from the sources).  Top-level keys `container` and
`is_preemptible` are always present; the optional `name` and
`description` are omitted when unset. -/
def submit_request_body (image : Image) (resources : Resources)
    (httpPort : Option ℕ) (volumes : Option (List Volume))
    (is_preemptible : Bool) (name description : Option String) :
    List (String × Json) :=
  [("container", .obj (container_to_api image resources httpPort volumes)),
   ("is_preemptible", .bool is_preemptible)]
  ++ (match name with
      | none => []
      | some n => [("name", .str n)])
  ++ (match description with
      | none => []
      | some d => [("description", .str d)])

end Jobs

mutual

/-- `true` iff a key named `k` occurs anywhere in the JSON value, at any
nesting depth. -/
def Json.hasKey : Json → String → Bool
  | .obj fields, k => Json.hasKeyFields fields k
  | .arr xs, k => Json.hasKeyList xs k
  | _, _ => false

/-- `Json.hasKey` over the field list of an object. -/
def Json.hasKeyFields : List (String × Json) → String → Bool
  | [], _ => false
  | (key, v) :: rest, k =>
    key = k || Json.hasKey v k || Json.hasKeyFields rest k

/-- `Json.hasKey` over the elements of an array. -/
def Json.hasKeyList : List Json → String → Bool
  | [], _ => false
  | j :: rest, k => Json.hasKey j k || Json.hasKeyList rest k

end

/-! ## Theorems -/

/-- C1: `AuthNegotiator.refresh_token` implements exactly the
three-branch dispatch: with no token it runs the full interactive flow
(get_code, then the code-for-token exchange); with a present, expired
token it performs only the refresh operation, not the interactive
flow; with a present, non-expired token it returns that token
unchanged and performs no operation at all, so repeated calls with a
non-expired token are idempotent with no side effects. -/
theorem refresh_token_three_branch_dispatch (env : NegotiatorEnv) (now : Int) :
    AuthNegotiator.refresh_token env now none
      = (env.exchanged, [AuthEffect.getCode, AuthEffect.exchangeCode]) ∧
    (∀ t : AuthToken, t.is_expired now = true →
      AuthNegotiator.refresh_token env now (some t)
        = (env.refreshed, [AuthEffect.refreshCall])) ∧
    (∀ t : AuthToken, t.is_expired now = false →
      AuthNegotiator.refresh_token env now (some t) = (t, [])) := by
  refine ⟨rfl, ?_, ?_⟩ <;> intro t h <;>
    simp [AuthNegotiator.refresh_token, h]

/-- C2: with the default margin ratio 0.75, `AuthToken.create` at time
`T0` yields `expiration_time = T0 + (3 * expires_in) / 4` (the exact
value of `int(expires_in * 0.75)`, under the binary64-exactness bound
`3 * expires_in < 2 ^ 53`), `is_expired` holds iff the current time is
`>=` the expiration time, and in particular
`create(token="t", expires_in=100, refresh_token="r")` at `T0` yields
expiration time `T0 + 75`, not expired at `T0 + 74`, expired at
`T0 + 75`. -/
theorem authToken_create_margin_and_expiry (tok rtok : String)
    (expires_in : ℕ) (T0 : Int) (hexact : 3 * expires_in < 2 ^ 53) :
    (AuthToken.create tok expires_in rtok T0).expiration_time
      = T0 + (3 * expires_in) / 4 ∧
    (∀ now : Int,
      (AuthToken.create tok expires_in rtok T0).is_expired now = true
        ↔ (AuthToken.create tok expires_in rtok T0).expiration_time ≤ now) ∧
    (AuthToken.create "t" 100 "r" T0).expiration_time = T0 + 75 ∧
    (AuthToken.create "t" 100 "r" T0).is_expired (T0 + 74) = false ∧
    (AuthToken.create "t" 100 "r" T0).is_expired (T0 + 75) = true := by
  refine ⟨rfl, fun now => ?_, ?_, ?_, ?_⟩ <;>
    simp [AuthToken.create, AuthToken.is_expired] <;> omega

/-- Witness for C2 at `tok = "t"`, `rtok = "r"`, `expires_in = 100`,
`T0 = 1000`. -/
theorem authToken_create_margin_and_expiry_witness :
    (AuthToken.create "t" 100 "r" 1000).expiration_time = 1000 + (3 * 100) / 4 ∧
    (∀ now : Int,
      (AuthToken.create "t" 100 "r" 1000).is_expired now = true
        ↔ (AuthToken.create "t" 100 "r" 1000).expiration_time ≤ now) ∧
    (AuthToken.create "t" 100 "r" 1000).expiration_time = 1000 + 75 ∧
    (AuthToken.create "t" 100 "r" 1000).is_expired (1000 + 74) = false ∧
    (AuthToken.create "t" 100 "r" 1000).is_expired (1000 + 75) = true :=
  authToken_create_margin_and_expiry "t" "r" 100 1000 (by decide)

/-- C10: `AuthToken.create` truncates the margin product, so whenever
`expires_in * 0.75 < 1` (that is, `3 * expires_in < 4`, e.g.
`expires_in = 1`) the margin truncates to zero and the freshly created
token is already expired at its creation instant. -/
theorem authToken_small_expires_in_expired_at_creation (tok rtok : String)
    (expires_in : ℕ) (T0 : Int) (hsmall : 3 * expires_in < 4) :
    (AuthToken.create tok expires_in rtok T0).expiration_time = T0 ∧
    (AuthToken.create tok expires_in rtok T0).is_expired T0 = true := by
  constructor <;> simp [AuthToken.create, AuthToken.is_expired] <;> omega

/-- Witness for C10 at `expires_in = 1`, `T0 = 1000`. -/
theorem authToken_small_expires_in_expired_at_creation_witness :
    (AuthToken.create "t" 1 "r" 1000).expiration_time = 1000 ∧
    (AuthToken.create "t" 1 "r" 1000).is_expired 1000 = true :=
  authToken_small_expires_in_expired_at_creation "t" "r" 1 1000 (by decide)

/-- C3: `AuthCode.wait` (default timeout 60 s) fails on timeout and on
cancellation with the auth-timeout failure — realized in the code as
`AuthException("failed to get an authorization code")`, the error the
spec's taxonomy labels `AuthTimeout` — and returns the value when one
was set before the deadline. -/
theorem authCode_wait_timeout_cancel_value :
    waitDefaultTimeout = 60 ∧
    AuthCode.wait .timeout
      = .error (.authException "failed to get an authorization code") ∧
    AuthCode.wait .cancelled
      = .error (.authException "failed to get an authorization code") ∧
    (∀ v : String, AuthCode.wait (.value v) = .ok v) :=
  ⟨rfl, rfl, rfl, fun _ => rfl⟩

/-- C4: for every host and ordered candidate port list in which every
port before the first free one fails with address-in-use, the server
binds that first free port and reports it (with the host) in the
resulting URL; when every candidate port is in use, it fails with the
no-free-port error — realized in the code as
`RuntimeError("No free ports.")`, the error the spec's taxonomy labels
`NoFreePort`. -/
theorem create_app_server_first_free_port (bind : BindEnv) (host : String) :
    (∀ busy p rest, (∀ q ∈ busy, bind q = some errnoEADDRINUSE) →
      bind p = none →
      create_app_server bind host (busy ++ p :: rest)
        = .ok ⟨host, p⟩) ∧
    (∀ ports, (∀ q ∈ ports, bind q = some errnoEADDRINUSE) →
      create_app_server bind host ports
        = .error (.runtimeError "No free ports.")) := by
  constructor
  · intro busy p rest hbusy hfree
    induction busy with
    | nil => simp [create_app_server, hfree]
    | cons q qs ih =>
      have hq := hbusy q (by simp)
      simp only [List.cons_append, create_app_server, hq,
        reduceCtorEq, reduceIte]
      exact ih (fun r hr => hbusy r (by simp [hr]))
  · intro ports hbusy
    induction ports with
    | nil => rfl
    | cons q qs ih =>
      have hq := hbusy q (by simp)
      simp only [create_app_server, hq, reduceCtorEq, reduceIte]
      exact ih (fun r hr => hbusy r (by simp [hr]))

/-- C9: an `OSError` whose errno differs from `EADDRINUSE` raised while
binding a candidate port propagates immediately from
`create_app_server`, whatever the remaining candidate ports are. -/
theorem create_app_server_foreign_oserror_propagates (bind : BindEnv)
    (host : String) (busy : List ℕ) (p : ℕ) (rest : List ℕ) (e : Int)
    (hbusy : ∀ q ∈ busy, bind q = some errnoEADDRINUSE)
    (hbind : bind p = some e) (hne : e ≠ errnoEADDRINUSE) :
    create_app_server bind host (busy ++ p :: rest)
      = .error (.osError e) := by
  induction busy with
  | nil => simp [create_app_server, hbind, hne]
  | cons q qs ih =>
    have hq := hbusy q (by simp)
    simp only [List.cons_append, create_app_server, hq,
      reduceCtorEq, reduceIte]
    exact ih (fun r hr => hbusy r (by simp [hr]))

/-- Witness for C9: port 54540 is busy (`EADDRINUSE = 98`), binding
port 54541 fails with `EACCES = 13`; the error propagates without
port 54542 being attempted. -/
theorem create_app_server_foreign_oserror_propagates_witness :
    create_app_server
      (fun q => if q = 54540 then some 98
                else if q = 54541 then some 13 else none)
      "0.0.0.0" ([54540] ++ 54541 :: [54542])
      = .error (.osError 13) :=
  create_app_server_foreign_oserror_propagates
    (fun q => if q = 54540 then some 98
              else if q = 54541 then some 13 else none)
    "0.0.0.0" [54540] 54541 [54542] 13
    (by intro q hq; simp at hq; simp [hq, BindEnv, errnoEADDRINUSE])
    (by simp [BindEnv]) (by decide)

/-- C5 counterexample: both clauses of the claim fail on the code at
concrete inputs.  First, "the resulting AuthToken keeps the original
refresh_token unless the token-endpoint response supplies a new
refresh_token explicitly": at a refresh whose 200 response supplies
`refresh_token = "new"` explicitly, the resulting token still carries
the original `"old"` — the response's field is never read
(login.py:267).  Second, "on a non-2xx response the call fails with
AuthException and no token is produced": at a refresh whose response
has the non-2xx status 300 with a JSON body carrying the token fields
— a status aiohttp surfaces, since only 301/302/303/307/308 are
followed as redirects and `resp.raise_for_status()` raises only for
status `>= 400` — the call produces a token instead of failing. -/
theorem refresh_ignores_new_refresh_token_cex :
    (AuthTokenClient.refresh ⟨"acc", 0, "old"⟩ ⟨200, "acc2", 100, some "new"⟩ 0
      = .ok ⟨"acc2", 75, "old"⟩ ∧ ("old" : String) ≠ "new") ∧
    AuthTokenClient.refresh ⟨"acc", 0, "old"⟩ ⟨300, "acc2", 100, none⟩ 0
      = .ok ⟨"acc2", 75, "old"⟩ := by
  refine ⟨⟨rfl, ?_⟩, rfl⟩
  decide

/-- C5 amended: for every successful `refresh(token)` call, the
resulting AuthToken keeps the original token's refresh_token
unconditionally — the response's `refresh_token` field, whether absent
or explicitly supplied, is never read; the call fails, with
`AuthException` and no token produced, exactly on the responses
`raise_for_status` flags (status `>= 400`): any response below 400
whose body carries the token fields — 2xx, or a surfaced non-redirect
3xx — yields a token. -/
theorem refresh_keeps_original_refresh_token (token : AuthToken)
    (resp : TokenResponse) (now : Int) :
    (∀ t : AuthToken, AuthTokenClient.refresh token resp now = .ok t →
      t.refresh_token = token.refresh_token) ∧
    (400 ≤ resp.status →
      AuthTokenClient.refresh token resp now
        = .error (.authException "failed to get an access token.")) ∧
    (resp.status < 400 →
      AuthTokenClient.refresh token resp now
        = .ok (AuthToken.create resp.access_token resp.expires_in
            token.refresh_token now)) := by
  refine ⟨?_, ?_, ?_⟩
  · intro t ht
    by_cases h : raise_for_status resp.status
    · simp [AuthTokenClient.refresh, h] at ht
    · simp [AuthTokenClient.refresh, h] at ht
      simp [← ht, AuthToken.create]
  · intro h
    have : raise_for_status resp.status := by
      simpa [raise_for_status] using h
    simp [AuthTokenClient.refresh, this]
  · intro h
    have : ¬ raise_for_status resp.status = true := by
      simp [raise_for_status]
      omega
    simp [AuthTokenClient.refresh, this]

/-- C6: `monitor(id)` yields exactly the byte chunks the server sends,
in order — whenever the response is not a 404 and the server-sent
chunks are all non-empty (the empty chunk is the end-of-stream marker),
the yielded sequence is the server's chunk sequence itself, so its
concatenation is the full stream; against a 404 response it fails with
`ResourceNotFound` and the consumer observes no chunks. -/
theorem monitor_yields_chunks_or_404 (resp : LogStreamResponse) :
    (resp.status = 404 → Jobs.monitor resp = .error .resourceNotFound) ∧
    (resp.status ≠ 404 → (∀ c ∈ resp.chunks, c ≠ []) →
      Jobs.monitor resp = .ok resp.chunks ∧
      (∀ out, Jobs.monitor resp = .ok out →
        out.flatten = resp.chunks.flatten)) := by
  constructor
  · intro h
    simp [Jobs.monitor, h]
  · intro h hne
    have htake : resp.chunks.takeWhile (fun c => !c.isEmpty) = resp.chunks :=
      List.takeWhile_eq_self_iff.mpr (by
        intro c hc
        simpa using hne c hc)
    refine ⟨by simp [Jobs.monitor, h, htake], ?_⟩
    intro out hout
    simp [Jobs.monitor, h, htake] at hout
    simp [hout]

/-- C7: `top(id)` yields the decoded telemetry frames in the order the
server sent them; a connection that closes with zero frames delivered
fails with `ValueError("not running")` before yielding anything; a 400
status at connect time fails with `ValueError("not found")`. -/
theorem top_frames_not_running_not_found (resp : TopResponse) :
    (resp.status = 400 → Jobs.top resp = .error (.valueError "not found")) ∧
    (resp.status ≠ 400 → resp.frames = [] →
      Jobs.top resp = .error (.valueError "not running")) ∧
    (resp.status ≠ 400 → resp.frames ≠ [] →
      Jobs.top resp = .ok resp.frames) := by
  refine ⟨fun h => by simp [Jobs.top, h], fun h hf => ?_, fun h hf => ?_⟩ <;>
    simp [Jobs.top, h, hf]

/-- Equation lemmas for `Json.hasKey` on each constructor. -/
theorem hasKey_obj (fields : List (String × Json)) (k : String) :
    Json.hasKey (.obj fields) k = Json.hasKeyFields fields k := by
  simp [Json.hasKey]

/-- `Json.hasKey` on arrays searches the elements. -/
theorem hasKey_arr (xs : List Json) (k : String) :
    Json.hasKey (.arr xs) k = Json.hasKeyList xs k := by
  simp [Json.hasKey]

/-- Strings hold no keys. -/
theorem hasKey_str (s : String) (k : String) :
    Json.hasKey (.str s) k = false := by
  simp [Json.hasKey]

/-- Numbers hold no keys. -/
theorem hasKey_num (q : ℚ) (k : String) :
    Json.hasKey (.num q) k = false := by
  simp [Json.hasKey]

/-- Booleans hold no keys. -/
theorem hasKey_bool (b : Bool) (k : String) :
    Json.hasKey (.bool b) k = false := by
  simp [Json.hasKey]

/-- `Json.hasKeyFields` on the empty field list. -/
theorem hasKeyFields_nil (k : String) :
    Json.hasKeyFields [] k = false := by
  simp [Json.hasKeyFields]

/-- `Json.hasKeyFields` on a cons cell. -/
theorem hasKeyFields_cons (key : String) (v : Json)
    (rest : List (String × Json)) (k : String) :
    Json.hasKeyFields ((key, v) :: rest) k
      = (decide (key = k) || Json.hasKey v k || Json.hasKeyFields rest k) := by
  simp [Json.hasKeyFields]

/-- `Json.hasKeyList` on the empty list. -/
theorem hasKeyList_nil (k : String) :
    Json.hasKeyList [] k = false := by
  simp [Json.hasKeyList]

/-- `Json.hasKeyList` on a cons cell. -/
theorem hasKeyList_cons (j : Json) (rest : List Json) (k : String) :
    Json.hasKeyList (j :: rest) k
      = (Json.hasKey j k || Json.hasKeyList rest k) := by
  simp [Json.hasKeyList]

/-- Auxiliary: key search distributes over appended field lists. -/
theorem hasKeyFields_append (a b : List (String × Json)) (k : String) :
    Json.hasKeyFields (a ++ b) k
      = (Json.hasKeyFields a k || Json.hasKeyFields b k) := by
  induction a with
  | nil => simp [hasKeyFields_nil]
  | cons x xs ih =>
    cases x
    simp [hasKeyFields_cons, ih, Bool.or_assoc]

/-- Auxiliary: the serialized `Resources` object contains only its own
field names. -/
theorem resources_to_api_hasKey (r : Resources) (k : String)
    (h1 : k ≠ "memory_mb") (h2 : k ≠ "cpu") (h3 : k ≠ "shm")
    (h4 : k ≠ "gpu") (h5 : k ≠ "gpu_model") :
    Json.hasKey (Resources.to_api r) k = false := by
  rcases r with ⟨cpu, mem, gpu, gpu_model, extshm⟩
  cases gpu <;> cases gpu_model <;>
    simp [Resources.to_api, hasKey_obj, hasKey_num, hasKey_str,
      hasKey_bool, hasKeyFields_cons, hasKeyFields_nil,
      hasKeyFields_append, h1.symm, h2.symm, h3.symm, h4.symm, h5.symm]

/-- Auxiliary: an array of serialized volumes contains a given key
nowhere when no single serialized volume does. -/
theorem hasKeyList_map_volume_to_api (vs : List Volume) (k : String)
    (h : ∀ v : Volume, Json.hasKey (Volume.to_api v) k = false) :
    Json.hasKeyList (vs.map Volume.to_api) k = false := by
  induction vs with
  | nil => rfl
  | cons v vs ih => simp [hasKeyList_cons, h v, ih]

/-- C8: the submit request body omits every optional field that is
unset: with `volumes = none` the body (container object included)
carries no `"volumes"` key at any depth, and likewise an unset `name`
or `description` leaves no such key. -/
theorem submit_body_sparse_serialization (image : Image)
    (resources : Resources) (httpPort : Option ℕ)
    (volumes : Option (List Volume)) (is_preemptible : Bool)
    (name description : Option String) :
    Json.hasKeyFields
      (Jobs.submit_request_body image resources httpPort none
        is_preemptible name description) "volumes" = false ∧
    Json.hasKeyFields
      (Jobs.submit_request_body image resources httpPort volumes
        is_preemptible none description) "name" = false ∧
    Json.hasKeyFields
      (Jobs.submit_request_body image resources httpPort volumes
        is_preemptible name none) "description" = false := by
  obtain ⟨img, cmd⟩ := image
  have hres : ∀ k : String, k ≠ "memory_mb" → k ≠ "cpu" → k ≠ "shm" →
      k ≠ "gpu" → k ≠ "gpu_model" →
      Json.hasKey (Resources.to_api resources) k = false :=
    fun k => resources_to_api_hasKey resources k
  have hv : ∀ v : Volume, ∀ k : String, k ≠ "src_storage_uri" →
      k ≠ "dst_path" → k ≠ "read_only" →
      Json.hasKey (Volume.to_api v) k = false := by
    intro v k h1 h2 h3
    simp [Volume.to_api, hasKey_obj, hasKey_str, hasKey_bool,
      hasKeyFields_cons, hasKeyFields_nil, h1.symm, h2.symm, h3.symm]
  refine ⟨?_, ?_, ?_⟩
  · cases cmd <;> cases httpPort <;> cases name <;> cases description <;>
      simp [Jobs.submit_request_body, Jobs.container_to_api,
        hasKeyFields_append, hasKey_obj, hasKey_num, hasKey_str, hasKey_bool, hasKey_arr,
        hasKeyFields_cons, hasKeyFields_nil, hasKeyList_nil,
        hres "volumes" (by decide) (by decide) (by decide) (by decide)
          (by decide)]
  · have hvs : ∀ vs : List Volume,
        Json.hasKeyList (vs.map Volume.to_api) "name" = false :=
      fun vs => hasKeyList_map_volume_to_api vs "name"
        (fun v => hv v "name" (by decide) (by decide) (by decide))
    cases cmd <;> cases httpPort <;> cases volumes <;> cases description <;>
      simp [Jobs.submit_request_body, Jobs.container_to_api,
        hasKeyFields_append, hasKey_obj, hasKey_num, hasKey_str, hasKey_bool, hasKey_arr,
        hasKeyFields_cons, hasKeyFields_nil, hasKeyList_nil, hvs,
        hres "name" (by decide) (by decide) (by decide) (by decide)
          (by decide)]
  · have hvs : ∀ vs : List Volume,
        Json.hasKeyList (vs.map Volume.to_api) "description" = false :=
      fun vs => hasKeyList_map_volume_to_api vs "description"
        (fun v => hv v "description" (by decide) (by decide) (by decide))
    cases cmd <;> cases httpPort <;> cases volumes <;> cases name <;>
      simp [Jobs.submit_request_body, Jobs.container_to_api,
        hasKeyFields_append, hasKey_obj, hasKey_num, hasKey_str, hasKey_bool, hasKey_arr,
        hasKeyFields_cons, hasKeyFields_nil, hasKeyList_nil, hvs,
        hres "description" (by decide) (by decide) (by decide) (by decide)
          (by decide)]

end PlatformClient
